import Mathlib

/-!
Shallow embedding of the StockSeek application (configuration store,
stock-code classification, day-table persistence and aggregation query,
trading-date computation, capital-flow display, control-panel parsing),
with theorems checking the natural-language specification against it.

File-system and database state are made explicit: a JSON configuration
file is `Except Unit ConfigDoc` (`Except.error` = unreadable/unparsable)
or `Option` of that when the file may be absent; a SQLite day table is
`Option (List row)` (`none` = table does not exist).
-/

namespace StockSeek

/-! ## Configuration store (`config_manager.py`, `main.py` ConfigManager) -/

/-- A parsed `config.json` document.  `announcements`/`api_key` are `none`
when the key is absent from the JSON object; `extra` holds any other
top-level keys (opaque payloads). -/
structure ConfigDoc where
  announcements : Option (List String)
  api_key : Option String
  extra : List (String × String)
deriving DecidableEq, Repr

/-- `DEFAULT_ANNOUNCEMENTS` from `config_manager.py` / `main.py Config`. -/
def DEFAULT_ANNOUNCEMENTS : List String :=
  ["系统公告：所有数据来源于公开市场信息，仅供参考，不构成投资建议。"]

/-- `DEFAULT_API_KEY`. -/
def DEFAULT_API_KEY : String := "sk-xxxxxxxxxxxxxxxxxxxxxxxxxxxxxxxx"

/-- The default document written by `ensure_config_file`. -/
def defaultDoc : ConfigDoc :=
  { announcements := some DEFAULT_ANNOUNCEMENTS
    api_key := some DEFAULT_API_KEY
    extra := [] }

/-- `config_manager.load_announcements`: reads the file; an unreadable or
unparsable file yields the default list (the `except` branch); otherwise
`config.get("announcements", DEFAULT_ANNOUNCEMENTS)` — the stored value
when the key is present (even an empty list), the default when absent. -/
def load_announcements (file : Except Unit ConfigDoc) : List String :=
  match file with
  | Except.error _ => DEFAULT_ANNOUNCEMENTS
  | Except.ok cfg => cfg.announcements.getD DEFAULT_ANNOUNCEMENTS

/-- `main.py ConfigManager.load_config`: the parsed document, or the
default document when the file is unreadable/unparsable. -/
def load_config (file : Except Unit ConfigDoc) : ConfigDoc :=
  match file with
  | Except.error _ => defaultDoc
  | Except.ok cfg => cfg

/-- `main.py ConfigManager.get_announcements`:
`announcements if announcements else DEFAULT` — Python truthiness sends
the empty list (and a missing key) to the default. -/
def get_announcements (file : Except Unit ConfigDoc) : List String :=
  let announcements := (load_config file).announcements.getD DEFAULT_ANNOUNCEMENTS
  if announcements.isEmpty then DEFAULT_ANNOUNCEMENTS else announcements

/-- `config_manager.save_announcements`: start from `{}`; if the file
exists, parse it (a parse failure is caught and reported as `false`, the
file untouched); set the `announcements` key; rewrite the file; report
`true`.  Returns the new file state and the boolean result. -/
def save_announcements (file : Option (Except Unit ConfigDoc))
    (announcements : List String) :
    Option (Except Unit ConfigDoc) × Bool :=
  match file with
  | none =>
      (some (Except.ok { announcements := some announcements
                         api_key := none, extra := [] }), true)
  | some (Except.error e) => (some (Except.error e), false)
  | some (Except.ok cfg) =>
      (some (Except.ok { cfg with announcements := some announcements }), true)

/-! ## Control panel (`main.py ControlPanel`) -/

/-- Numeric value of a list of decimal digit characters. -/
def digitsVal (l : List Char) : Nat :=
  l.foldl (fun acc c => acc * 10 + (c.toNat - 48)) 0

/-- Python `int(s)` on the strings the control panel can hold: an optional
leading minus sign followed by one or more decimal digits; anything else
raises `ValueError`, modelled as `none`. -/
def pyInt (s : String) : Option Int :=
  match s.data with
  | [] => none
  | '-' :: rest =>
      if rest ≠ [] ∧ rest.all Char.isDigit then some (-(digitsVal rest : Int))
      else none
  | l => if l.all Char.isDigit then some (digitsVal l : Int) else none

/-- `ControlPanel._adjust_amount`: parse the field, set it to
`max(0, current + delta)`; on `ValueError` reset the field to `"2000"`.
Returns the new field string. -/
def adjust_amount (amountVar : String) (delta : Int) : String :=
  match pyInt amountVar with
  | some current => toString (max 0 (current + delta))
  | none => "2000"

/-- `ControlPanel._adjust_market_cap`: parse the field, set it to
`max(0, current + delta)`; on `ValueError` reset the field to `"200"`. -/
def adjust_market_cap (capVar : String) (delta : Int) : String :=
  match pyInt capVar with
  | some current => toString (max 0 (current + delta))
  | none => "200"

/-- The dictionary returned by `ControlPanel.get_filter_params`. -/
structure FilterParams where
  min_amount : Int
  max_market_cap : Int
  sort_by : String
deriving DecidableEq, Repr

/-- `ControlPanel.get_filter_params`: parse both fields, falling back to
`2000` (amount) and `200` (market cap) and resetting the corresponding
field on `ValueError`.  Returns the params and the two field strings
after the call. -/
def get_filter_params (amountVar capVar sortVar : String) :
    FilterParams × String × String :=
  let amountRes : Int × String :=
    match pyInt amountVar with
    | some v => (v, amountVar)
    | none => (2000, "2000")
  let capRes : Int × String :=
    match pyInt capVar with
    | some v => (v, capVar)
    | none => (200, "200")
  (⟨amountRes.1, capRes.1, sortVar⟩, amountRes.2, capRes.2)

/-! ## Stock-code classification (`utils.get_stock_info`,
`main.py Utils.get_stock_info`) -/

/-- Python `str.isdigit()` on the code strings this program sees:
nonempty and every character a decimal digit. -/
def pyIsdigit (l : List Char) : Bool := !l.isEmpty && l.all Char.isDigit

/-- Python `str.zfill(6)`: pad on the left with `'0'` up to length 6. -/
def zfill6 (l : List Char) : List Char :=
  List.replicate (6 - l.length) '0' ++ l

/-- The branch chain of `utils.get_stock_info` after the digit guard and
padding, in source order (Shanghai/Shenzhen prefixes before most
Beijing prefixes).  `code[0]` is the head of a provably nonempty list;
`List.headD` with a non-`'8'` default is the total rendering. -/
def utilsClassify (code : List Char) : String × String :=
  let p2 := code.take 2
  let p3 := code.take 3
  if p3 = ['9', '2', '0'] then ("bj", "北交所")
  else if p3 ∈ [['6','0','0'], ['6','0','1'], ['6','0','3'], ['6','0','5']] then
    ("sh", "沪市主板")
  else if p3 = ['6','8','8'] then ("sh", "科创板")
  else if p3 ∈ [['0','0','0'], ['0','0','1'], ['0','0','2'], ['0','0','3'], ['0','0','4']] then
    ("sz", "深市主板")
  else if p3 ∈ [['3','0','0'], ['3','0','1']] then ("sz", "创业板")
  else if p2 = ['2','0'] then ("sz", "深市B股")
  else if p3 = ['9','0','0'] then ("sh", "沪市B股")
  else if p3 ∈ [['4','3','0'], ['8','3','1'], ['8','3','2'], ['8','3','3'], ['8','3','4'],
                ['8','3','5'], ['8','3','6'], ['8','3','7'], ['8','3','8'], ['8','3','9']] then
    ("bj", "北交所")
  else if p3 ∈ [['4','0','0'], ['4','3','0'], ['8','3','0']] then ("bj", "北交所")
  else if p2 = ['8','7'] then ("bj", "北交所")
  else if p2 = ['8','3'] then ("bj", "北交所")
  else if code.headD '0' = '8' ∧ p3 ≠ ['9','2','0'] then ("bj", "北交所")
  else ("unknown", "其他板块")

/-- The branch chain of `main.py Utils.get_stock_info` after the digit
guard and padding, in source order (all Beijing prefixes first). -/
def mainClassify (code : List Char) : String × String :=
  let p2 := code.take 2
  let p3 := code.take 3
  if p3 = ['9','2','0'] ∨
     p3 ∈ [['4','3','0'], ['8','3','1'], ['8','3','2'], ['8','3','3'], ['8','3','4'],
           ['8','3','5'], ['8','3','6'], ['8','3','7'], ['8','3','8'], ['8','3','9']] then
    ("bj", "北交所")
  else if p3 ∈ [['4','0','0'], ['4','3','0'], ['8','3','0']] ∨ p2 ∈ [['8','7'], ['8','3']] then
    ("bj", "北交所")
  else if code.headD '0' = '8' ∧ p3 ≠ ['9','2','0'] then ("bj", "北交所")
  else if p3 ∈ [['6','0','0'], ['6','0','1'], ['6','0','3'], ['6','0','5']] then
    ("sh", "沪市主板")
  else if p3 = ['6','8','8'] then ("sh", "科创板")
  else if p3 = ['9','0','0'] then ("sh", "沪市B股")
  else if p3 ∈ [['0','0','0'], ['0','0','1'], ['0','0','2'], ['0','0','3'], ['0','0','4']] then
    ("sz", "深市主板")
  else if p3 ∈ [['3','0','0'], ['3','0','1']] then ("sz", "创业板")
  else if p2 = ['2','0'] then ("sz", "深市B股")
  else ("unknown", "其他板块")

/-- `utils.get_stock_info`: non-digit input short-circuits; otherwise the
code is zero-filled to 6 when its length is below 7 and classified. -/
def get_stock_info (s : String) : String × String :=
  if !(pyIsdigit s.data) then ("unknown", "非数字代码")
  else utilsClassify (if s.data.length < 7 then zfill6 s.data else s.data)

/-- `main.py Utils.get_stock_info`: same guard and padding, classified by
the Beijing-first branch chain. -/
def mainGetStockInfo (s : String) : String × String :=
  if !(pyIsdigit s.data) then ("unknown", "非数字代码")
  else mainClassify (if s.data.length < 7 then zfill6 s.data else s.data)

/-! ## Database layer (`main.py DatabaseManager`) -/

/-- One row of the day's tick table `stock_changes_{date}`.  `amount` is
`成交金额` (a nonnegative amount from the feed); `time` is `时间`. -/
structure TickRow where
  code : String
  name : String
  time : String
  amount : Nat
deriving DecidableEq, Repr

/-- One row of the day's snapshot table `stock_real_data_{date}`.
`marketCap` is `总市值`; the quote columns the query copies through are
collapsed into the opaque `quote` payload. -/
structure SnapRow where
  code : String
  marketCap : Int
  quote : String
deriving DecidableEq, Repr

instance : Inhabited SnapRow := ⟨⟨"", 0, ""⟩⟩

/-- One row of the aggregated result (`load_filtered_data`): the group
key `(代码, 名称)`, the snapshot columns of some row of the group,
`COUNT(1)` and `CAST(SUM(成交金额)/10000 AS INTEGER)`. -/
structure AggRow where
  code : String
  name : String
  snap : SnapRow
  tradeCount : Nat
  totalAmount : Nat
deriving DecidableEq, Repr

/-- `DatabaseManager.save_stock_changes`: `DELETE FROM` the day table —
`sqlite3.OperationalError` (table absent) is caught and ignored — then
append the batch.  `none` models an absent table. -/
def save_stock_changes (table : Option (List TickRow)) (batch : List TickRow) :
    Option (List TickRow) :=
  let cleared : Option (List TickRow) :=
    match table with
    | none => none
    | some _ => some []
  some (cleared.getD [] ++ batch)

/-- The `FROM a, b WHERE a.代码 = b.代码 AND b.总市值 <= maxCap` join of
the query in `load_filtered_data`. -/
def joinRows (ticks : List TickRow) (snaps : List SnapRow) (maxCap : Int) :
    List (TickRow × SnapRow) :=
  ticks.flatMap fun a =>
    snaps.filterMap fun b =>
      if a.code = b.code ∧ b.marketCap ≤ maxCap then some (a, b) else none

/-- The `GROUP BY a.代码, a.名称` step: one `AggRow` per distinct key of
the joined rows, with `COUNT(1)` and the truncated `SUM(成交金额)/10000`. -/
def aggregated (ticks : List TickRow) (snaps : List SnapRow) (maxCap : Int) :
    List AggRow :=
  let rows := joinRows ticks snaps maxCap
  ((rows.map fun r => (r.1.code, r.1.name)).dedup).map fun k =>
    let g := rows.filter fun r => (r.1.code, r.1.name) = k
    { code := k.1
      name := k.2
      snap := ((g.head?).map (·.2)).getD default
      tradeCount := g.length
      totalAmount := (g.map (·.1.amount)).sum / 10000 }

/-- `DatabaseManager.load_filtered_data` on existing tables: the join
and group steps, the `HAVING 总成交金额 > min_amount` filter, and
`ORDER BY {sort_by} DESC` (descending by the selected column's value,
`sortKey`). -/
def load_filtered_data (ticks : List TickRow) (snaps : List SnapRow)
    (minAmount : Int) (maxCap : Int) (sortKey : AggRow → Int) : List AggRow :=
  ((aggregated ticks snaps maxCap).filter fun r => minAmount < (r.totalAmount : Int)
    ).insertionSort fun x y => sortKey y ≤ sortKey x

/-- An error escaping `load_filtered_data` (pandas wraps sqlite's
`no such table` and raises; nothing in the method catches it). -/
inductive SqlError where
  | noSuchTable
deriving DecidableEq, Repr

/-- `load_filtered_data` as called against the database state: when
either day table has not been created, the query raises. -/
def loadFilteredDataE (ticks : Option (List TickRow))
    (snaps : Option (List SnapRow)) (minAmount : Int) (maxCap : Int)
    (sortKey : AggRow → Int) : Except SqlError (List AggRow) :=
  match ticks, snaps with
  | some a, some b => Except.ok (load_filtered_data a b minAmount maxCap sortKey)
  | _, _ => Except.error SqlError.noSuchTable

/-- `StockVisualizationApp.load_data`: calls `load_filtered_data` inside
`try/except`; any exception is logged and the status line set to a
failure message (`none` here), so nothing propagates to the UI loop. -/
def load_data (ticks : Option (List TickRow)) (snaps : Option (List SnapRow))
    (minAmount : Int) (maxCap : Int) (sortKey : AggRow → Int) :
    Option (List AggRow) :=
  match loadFilteredDataE ticks snaps minAmount maxCap sortKey with
  | Except.ok rows => some rows
  | Except.error _ => none

/-! ## Trading date (`main.py Utils.get_trading_date`,
`chart_window.KLineWindow.fetch_data_async`) -/

/-- The `while target_date.weekday() > 4: target_date -= 1 day` loop.
Days are counted from an epoch Monday, so `d % 7` is Python's
`weekday()` (5 = Saturday, 6 = Sunday). -/
def adjustWeekend (d : Nat) : Nat :=
  if h : d % 7 > 4 then adjustWeekend (d - 1) else d
decreasing_by omega

/-- `Utils.get_trading_date`: start from today (`day`), step to the
previous calendar day when the time of day (`sec`, seconds since
midnight) is strictly before 09:30 = 34200 s, then skip weekend days
backwards. -/
def get_trading_date (day : Nat) (sec : Nat) : Nat :=
  adjustWeekend (if sec < 34200 then day - 1 else day)

/-! ## Capital-flow detail (`main.py _create_fund_flow_table`) -/

/-- One row of the per-day capital-flow series; `date` is the `日期`
column as an ordinal, `payload` the remaining columns. -/
structure FundRow where
  date : Nat
  payload : String
deriving DecidableEq, Repr

/-- `fetch_fund_flow_data` on a frame that has the `日期` column: an
empty fetch shows nothing; otherwise
`sort_values('日期', ascending=False).head(20)`. -/
def fundFlowDisplay (rows : List FundRow) : List FundRow :=
  if rows.isEmpty then []
  else ((rows.insertionSort fun x y => y.date ≤ x.date).take 20)

/-! ## Theorems -/

/-- C1 counterexample: a readable configuration whose stored
`announcements` value is the empty list.  `config_manager.load_announcements`
returns that empty list, not the single-element default disclaimer list,
so the claim fails on this implementation. -/
theorem C1_counterexample :
    load_announcements (Except.ok ⟨some [], some DEFAULT_API_KEY, []⟩) = [] ∧
    DEFAULT_ANNOUNCEMENTS ≠ [] := by
  constructor
  · rfl
  · simp [DEFAULT_ANNOUNCEMENTS]

/-- C1 (amended): `main.py ConfigManager.get_announcements` returns the
stored list and falls back to the default disclaimer list when the file
is unreadable or the stored list is missing or empty, and never returns
an empty list; the standalone `config_manager.load_announcements` falls
back to the default only when the file is unreadable or the key is
missing — a stored empty list is returned as-is.  Neither operation
raises (both are total). -/
theorem C1_announcements_amended (file : Except Unit ConfigDoc) :
    (∀ e, file = Except.error e →
      get_announcements file = DEFAULT_ANNOUNCEMENTS ∧
      load_announcements file = DEFAULT_ANNOUNCEMENTS) ∧
    (∀ d, file = Except.ok d → d.announcements = none →
      get_announcements file = DEFAULT_ANNOUNCEMENTS ∧
      load_announcements file = DEFAULT_ANNOUNCEMENTS) ∧
    (∀ d a, file = Except.ok d → d.announcements = some a → a ≠ [] →
      get_announcements file = a ∧ load_announcements file = a) ∧
    (∀ d, file = Except.ok d → d.announcements = some [] →
      get_announcements file = DEFAULT_ANNOUNCEMENTS ∧
      load_announcements file = []) ∧
    get_announcements file ≠ [] := by
  refine ⟨?_, ?_, ?_, ?_, ?_⟩
  · rintro e rfl
    exact ⟨rfl, rfl⟩
  · rintro d rfl h
    simp [get_announcements, load_announcements, load_config, h]
  · rintro d a rfl h hne
    simp [get_announcements, load_announcements, load_config, h, hne]
  · rintro d rfl h
    simp [get_announcements, load_announcements, load_config, h]
  · cases file with
    | error e => simp [get_announcements, load_config, DEFAULT_ANNOUNCEMENTS, defaultDoc]
    | ok d =>
      cases hd : d.announcements with
      | none => simp [get_announcements, load_config, hd, DEFAULT_ANNOUNCEMENTS]
      | some a =>
        cases a with
        | nil => simp [get_announcements, load_config, hd, DEFAULT_ANNOUNCEMENTS]
        | cons x xs => simp [get_announcements, load_config, hd]

/-- C1 witness: the amended theorem applied to a readable document whose
stored list is `["x"]` (returned as-is by both implementations) and to
one whose stored list is empty (main's accessor falls back to the
default, the standalone loader returns the empty list). -/
theorem C1_announcements_witness :
    (get_announcements (Except.ok ⟨some ["x"], none, []⟩) = ["x"] ∧
      load_announcements (Except.ok ⟨some ["x"], none, []⟩) = ["x"]) ∧
    (get_announcements (Except.ok ⟨some [], none, []⟩) = DEFAULT_ANNOUNCEMENTS ∧
      load_announcements (Except.ok ⟨some [], none, []⟩) = []) :=
  ⟨(C1_announcements_amended (Except.ok ⟨some ["x"], none, []⟩)).2.2.1
      ⟨some ["x"], none, []⟩ ["x"] rfl rfl (by simp),
    (C1_announcements_amended (Except.ok ⟨some [], none, []⟩)).2.2.2.1
      ⟨some [], none, []⟩ rfl rfl⟩

/-- C6: `save_announcements` rewrites only the `announcements` field —
for a readable prior document the `api_key` value (and every other key)
is identical after the call and the result is `true`; a missing file is
created (also `true`); an unparsable file makes the caught exception
path report `false`, the file untouched.  The operation is total, so it
never raises. -/
theorem C6_save_announcements_frame (file : Option (Except Unit ConfigDoc))
    (anns : List String) :
    (∀ cfg, file = some (Except.ok cfg) →
      (save_announcements file anns).1 =
        some (Except.ok { cfg with announcements := some anns }) ∧
      (save_announcements file anns).2 = true) ∧
    (∀ cfg, file = some (Except.ok cfg) →
      ∃ cfg', (save_announcements file anns).1 = some (Except.ok cfg') ∧
        cfg'.api_key = cfg.api_key ∧ cfg'.extra = cfg.extra ∧
        cfg'.announcements = some anns) ∧
    (file = none → (save_announcements file anns).2 = true) ∧
    (∀ e, file = some (Except.error e) →
      save_announcements file anns = (file, false)) := by
  refine ⟨?_, ?_, ?_, ?_⟩
  · rintro cfg rfl
    exact ⟨rfl, rfl⟩
  · rintro cfg rfl
    exact ⟨{ cfg with announcements := some anns }, rfl, rfl, rfl, rfl⟩
  · rintro rfl
    rfl
  · rintro e rfl
    rfl

/-- C6 witness: saving `["a"]` over a readable document with
`api_key = "k"` keeps `"k"` and reports `true`; over an unparsable file
it reports `false` and leaves the file unchanged. -/
theorem C6_save_announcements_witness :
    (save_announcements (some (Except.ok ⟨some ["old"], some "k", [("v", "1")]⟩)) ["a"]).1 =
      some (Except.ok ⟨some ["a"], some "k", [("v", "1")]⟩) ∧
    (save_announcements (some (Except.ok ⟨some ["old"], some "k", [("v", "1")]⟩)) ["a"]).2 = true ∧
    save_announcements (some (Except.error ())) ["a"] = (some (Except.error ()), false) :=
  ⟨((C6_save_announcements_frame
      (some (Except.ok ⟨some ["old"], some "k", [("v", "1")]⟩)) ["a"]).1
      ⟨some ["old"], some "k", [("v", "1")]⟩ rfl).1,
    ((C6_save_announcements_frame
      (some (Except.ok ⟨some ["old"], some "k", [("v", "1")]⟩)) ["a"]).1
      ⟨some ["old"], some "k", [("v", "1")]⟩ rfl).2,
    (C6_save_announcements_frame (some (Except.error ())) ["a"]).2.2.2 () rfl⟩

/-- C2 counterexample: with the day's tick table absent (no refresh yet),
`load_filtered_data` raises (`no such table` escapes the method — the
`pd.read_sql_query` call is not wrapped in any handler), rather than
returning the empty result the claim asserts. -/
theorem C2_counterexample :
    loadFilteredDataE none (some []) 2000 200 (fun r => (r.totalAmount : Int)) =
      Except.error SqlError.noSuchTable ∧
    loadFilteredDataE none (some []) 2000 200 (fun r => (r.totalAmount : Int)) ≠
      Except.ok [] := by
  refine ⟨rfl, ?_⟩
  intro h
  exact Except.noConfusion h

/-- C2 (amended): when either day-scoped table is absent,
`load_filtered_data` itself raises the database error; its caller
`load_data` catches every exception and surfaces the failure as an empty
view with a status message (`none` here), so nothing propagates further.
When both tables exist the query result is passed through. -/
theorem C2_missing_table_amended (ticks : Option (List TickRow))
    (snaps : Option (List SnapRow)) (minA maxC : Int) (key : AggRow → Int) :
    ((ticks = none ∨ snaps = none) →
      loadFilteredDataE ticks snaps minA maxC key =
        Except.error SqlError.noSuchTable ∧
      load_data ticks snaps minA maxC key = none) ∧
    (∀ a b, ticks = some a → snaps = some b →
      load_data ticks snaps minA maxC key =
        some (load_filtered_data a b minA maxC key)) := by
  constructor
  · rintro (rfl | rfl)
    · exact ⟨rfl, rfl⟩
    · cases ticks <;> exact ⟨rfl, rfl⟩
  · rintro a b rfl rfl
    rfl

/-- C2 witness: the amended theorem at a concrete state with no tick
table — the query errors and the caller displays failure — and at a
state with two empty tables, where the empty result passes through. -/
theorem C2_missing_table_witness :
    (loadFilteredDataE none (some []) 2000 200 (fun r => (r.totalAmount : Int)) =
        Except.error SqlError.noSuchTable ∧
      load_data none (some []) 2000 200 (fun r => (r.totalAmount : Int)) = none) ∧
    load_data (some []) (some []) 2000 200 (fun r => (r.totalAmount : Int)) =
      some (load_filtered_data [] [] 2000 200 (fun r => (r.totalAmount : Int))) :=
  ⟨(C2_missing_table_amended none (some []) 2000 200
      (fun r => (r.totalAmount : Int))).1 (Or.inl rfl),
    (C2_missing_table_amended (some []) (some []) 2000 200
      (fun r => (r.totalAmount : Int))).2 [] [] rfl rfl⟩

/-- C5: saving the day's tick batch replaces rather than merges — after
a second same-day run with batch `b2`, the table holds exactly `b2`
(`M` rows, never `N + M`), and a `DELETE` against an absent table is a
caught no-op (the save still succeeds with exactly the batch). -/
theorem C5_save_replaces (table : Option (List TickRow))
    (b1 b2 : List TickRow) :
    save_stock_changes (save_stock_changes table b1) b2 = some b2 ∧
    ((save_stock_changes (save_stock_changes table b1) b2).getD []).length =
      b2.length ∧
    save_stock_changes none b2 = some b2 ∧
    save_stock_changes table b1 = some b1 := by
  refine ⟨?_, ?_, ?_, ?_⟩ <;>
    cases table <;> simp [save_stock_changes]

/-- C10: when the maximum-market-cap field does not parse as an integer,
both the ±50 handler and `get_filter_params` fall back to `200`
(resetting the field to `"200"`), while the minimum-amount field's
fallback is `2000`; a parseable field adjusted by `delta` becomes
`max(0, current + delta)`. -/
theorem C10_control_panel_fallbacks (aVar cVar sVar : String) (delta : Int) :
    (pyInt cVar = none →
      adjust_market_cap cVar delta = "200" ∧
      (get_filter_params aVar cVar sVar).1.max_market_cap = 200 ∧
      (get_filter_params aVar cVar sVar).2.2 = "200") ∧
    (∀ c, pyInt cVar = some c →
      adjust_market_cap cVar delta = toString (max 0 (c + delta)) ∧
      (get_filter_params aVar cVar sVar).1.max_market_cap = c) ∧
    (pyInt aVar = none →
      adjust_amount aVar delta = "2000" ∧
      (get_filter_params aVar cVar sVar).1.min_amount = 2000 ∧
      (get_filter_params aVar cVar sVar).2.1 = "2000") ∧
    (∀ c, pyInt aVar = some c →
      adjust_amount aVar delta = toString (max 0 (c + delta)) ∧
      (get_filter_params aVar cVar sVar).1.min_amount = c) := by
  refine ⟨?_, ?_, ?_, ?_⟩
  · intro h
    refine ⟨?_, ?_, ?_⟩ <;> simp [adjust_market_cap, get_filter_params, h]
  · intro c h
    constructor <;> simp [adjust_market_cap, get_filter_params, h]
  · intro h
    refine ⟨?_, ?_, ?_⟩ <;> simp [adjust_amount, get_filter_params, h]
  · intro c h
    constructor <;> simp [adjust_amount, get_filter_params, h]

/-- C10 witness: the theorem at the unparsable strings `"abc"` (amount)
and `"x"` (market cap) with `delta = 50`, and at the parseable market-cap
string `"180"`, where `-50` then yields `max 0 130 = 130`. -/
theorem C10_control_panel_witness :
    (adjust_market_cap "x" 50 = "200" ∧
      (get_filter_params "abc" "x" "总成交金额").1.max_market_cap = 200 ∧
      (get_filter_params "abc" "x" "总成交金额").2.2 = "200") ∧
    (adjust_amount "abc" 50 = "2000" ∧
      (get_filter_params "abc" "x" "总成交金额").1.min_amount = 2000 ∧
      (get_filter_params "abc" "x" "总成交金额").2.1 = "2000") ∧
    adjust_market_cap "180" (-50) = toString (max 0 ((180 : Int) + (-50))) :=
  ⟨(C10_control_panel_fallbacks "abc" "x" "总成交金额" 50).1 (by decide),
    (C10_control_panel_fallbacks "abc" "x" "总成交金额" 50).2.2.1 (by decide),
    ((C10_control_panel_fallbacks "abc" "180" "总成交金额" (-50)).2.1 180
      (by decide)).1⟩

/-- C8: the capital-flow detail sorts the fetched rows descending by
date and keeps the most recent 20 — the displayed row count is
`min 20 n` (up to 20 rows despite the "最近10天" label), every displayed
row comes from the fetch, and the display is ordered by non-increasing
date. -/
theorem C8_fund_flow_twenty (rows : List FundRow) :
    (fundFlowDisplay rows).length = min 20 rows.length ∧
    (fundFlowDisplay rows).Sorted (fun x y => y.date ≤ x.date) ∧
    ∀ r ∈ fundFlowDisplay rows, r ∈ rows := by
  haveI instTot : IsTotal FundRow (fun x y => y.date ≤ x.date) :=
    ⟨fun a b => Nat.le_total b.date a.date⟩
  haveI instTrans : IsTrans FundRow (fun x y => y.date ≤ x.date) :=
    ⟨fun _ _ _ h1 h2 => le_trans h2 h1⟩
  unfold fundFlowDisplay
  by_cases h : rows.isEmpty
  · have : rows = [] := List.isEmpty_iff.mp h
    subst this
    simp
  · simp only [h, if_neg, Bool.false_eq_true, not_false_iff, if_false]
    refine ⟨?_, ?_, ?_⟩
    · rw [List.length_take, List.length_insertionSort, Nat.min_comm]
    · exact ((List.sorted_insertionSort _ rows).sublist (List.take_sublist _ _))
    · intro r hr
      have := List.mem_of_mem_take hr
      exact (List.mem_insertionSort _).mp this

/-- C8 witness: three fetched rows are all shown (`min 20 3 = 3`),
sorted descending by date, and the newest row is among the fetched. -/
theorem C8_fund_flow_witness :
    (fundFlowDisplay [⟨3, "a"⟩, ⟨7, "b"⟩, ⟨5, "c"⟩]).length =
      min 20 ([⟨3, "a"⟩, ⟨7, "b"⟩, (⟨5, "c"⟩ : FundRow)]).length ∧
    (⟨7, "b"⟩ : FundRow) ∈ ([⟨3, "a"⟩, ⟨7, "b"⟩, ⟨5, "c"⟩] : List FundRow) :=
  ⟨(C8_fund_flow_twenty [⟨3, "a"⟩, ⟨7, "b"⟩, ⟨5, "c"⟩]).1,
    (C8_fund_flow_twenty [⟨3, "a"⟩, ⟨7, "b"⟩, ⟨5, "c"⟩]).2.2 ⟨7, "b"⟩ (by decide)⟩

/-- The weekend-skipping loop steps backwards to the greatest day that
is not a Saturday (weekday 5) or Sunday (weekday 6): the result is at
most the start, its weekday is at most 4, and every day it skipped over
was a weekend day. -/
theorem adjustWeekend_spec (d : Nat) :
    adjustWeekend d ≤ d ∧ adjustWeekend d % 7 ≤ 4 ∧
    ∀ e, adjustWeekend d < e → e ≤ d → e % 7 > 4 := by
  induction d using Nat.strong_induction_on with
  | _ d ih =>
    rw [adjustWeekend]
    split
    · rename_i h
      have hd : 0 < d := by omega
      obtain ⟨h1, h2, h3⟩ := ih (d - 1) (by omega)
      refine ⟨by omega, h2, ?_⟩
      intro e he1 he2
      rcases Nat.lt_or_ge e d with h' | h'
      · exact h3 e he1 (by omega)
      · have he : e = d := by omega
        subst he
        exact h
    · rename_i h
      exact ⟨le_refl _, by omega, fun e he1 he2 => by omega⟩

/-- C7: `get_trading_date` starts from the previous calendar day exactly
when the time of day is strictly before 09:30 (34200 s) and from today
otherwise, then steps back one day at a time only over Saturdays and
Sundays (weekday 5/6 from an epoch Monday): the result's weekday is at
most 4 — never Saturday or Sunday — it is at most the starting
candidate, and every skipped day was a weekend day. -/
theorem C7_trading_date (day sec : Nat) (_hday : 1 ≤ day) :
    (sec < 34200 → get_trading_date day sec = adjustWeekend (day - 1)) ∧
    (34200 ≤ sec → get_trading_date day sec = adjustWeekend day) ∧
    get_trading_date day sec % 7 ≤ 4 ∧
    get_trading_date day sec ≤ (if sec < 34200 then day - 1 else day) ∧
    ∀ e, get_trading_date day sec < e →
      e ≤ (if sec < 34200 then day - 1 else day) → e % 7 > 4 := by
  have hspec := adjustWeekend_spec (if sec < 34200 then day - 1 else day)
  refine ⟨?_, ?_, hspec.2.1, hspec.1, hspec.2.2⟩
  · intro h
    simp [get_trading_date, h]
  · intro h
    simp [get_trading_date, Nat.not_lt_of_ge h]

/-- C7 witness: at day 13 (a Sunday: `13 % 7 = 6`) with the clock past
09:30, the trading date is 11 (Friday); the skipped day 12 (Saturday)
has weekday `> 4`, and day 9 with a pre-09:30 clock steps to day 8. -/
theorem C7_trading_date_witness :
    get_trading_date 13 40000 % 7 ≤ 4 ∧
    get_trading_date 13 40000 = adjustWeekend 13 ∧
    (12 % 7 > 4) ∧
    get_trading_date 9 1000 = adjustWeekend 8 :=
  ⟨(C7_trading_date 13 40000 (by decide)).2.2.1,
    (C7_trading_date 13 40000 (by decide)).2.1 (by decide),
    (C7_trading_date 13 40000 (by decide)).2.2.2.2 12
      (by simp [get_trading_date, adjustWeekend]) (by simp),
    (C7_trading_date 9 1000 (by decide)).1 (by decide)⟩

theorem zfill6_length (l : List Char) : (zfill6 l).length = max 6 l.length := by
  simp [zfill6]
  omega

theorem zfill6_all_digits (l : List Char) (h : l.all Char.isDigit = true) :
    (zfill6 l).all Char.isDigit = true := by
  simp only [zfill6, List.all_append, Bool.and_eq_true, List.all_eq_true]
  exact ⟨fun c hc => by rw [List.eq_of_mem_replicate hc]; rfl,
    List.all_eq_true.mp h⟩

theorem zfill6_idem (l : List Char) (h : l.length ≤ 6) :
    zfill6 (zfill6 l) = zfill6 l := by
  have hlen : (zfill6 l).length = 6 := by
    rw [zfill6_length]
    omega
  show List.replicate (6 - (zfill6 l).length) '0' ++ zfill6 l = zfill6 l
  rw [hlen]
  simp

/-- C4: `get_stock_info` is a pure function of its argument (it is a
Lean function, so determinism is by construction), is idempotent under
left-zero-padding on all-digit strings of length at most 6, satisfies
the five concrete board classifications, and maps every non-all-digit
string to `("unknown", "非数字代码")`. -/
theorem C4_classification (s : String) (hd : pyIsdigit s.data = true)
    (hlen : s.data.length ≤ 6) :
    get_stock_info s = get_stock_info (String.mk (zfill6 s.data)) ∧
    get_stock_info "600000" = ("sh", "沪市主板") ∧
    get_stock_info "000001" = ("sz", "深市主板") ∧
    get_stock_info "300750" = ("sz", "创业板") ∧
    get_stock_info "688981" = ("sh", "科创板") ∧
    get_stock_info "920000" = ("bj", "北交所") ∧
    (∀ t : String, pyIsdigit t.data = false →
      get_stock_info t = ("unknown", "非数字代码")) := by
  refine ⟨?_, by decide, by decide, by decide, by decide, by decide, ?_⟩
  · have hdig : s.data.all Char.isDigit = true := by
      simp only [pyIsdigit, Bool.and_eq_true] at hd
      exact hd.2
    have hz : pyIsdigit (zfill6 s.data) = true := by
      have hne : zfill6 s.data ≠ [] := by
        intro hnil
        have h6 := zfill6_length s.data
        rw [hnil] at h6
        simp only [List.length_nil] at h6
        omega
      simp [pyIsdigit, zfill6_all_digits _ hdig, List.isEmpty_iff, hne]
    unfold get_stock_info
    rw [hd, hz]
    simp only [Bool.not_true, Bool.false_eq_true, if_false]
    have h7 : s.data.length < 7 := by omega
    have h7' : (String.mk (zfill6 s.data)).data.length < 7 := by
      show (zfill6 s.data).length < 7
      rw [zfill6_length]
      omega
    rw [if_pos h7, if_pos h7']
    show utilsClassify (zfill6 s.data) = utilsClassify (zfill6 (zfill6 s.data))
    rw [zfill6_idem _ hlen]
  · intro t ht
    unfold get_stock_info
    rw [ht]
    rfl

/-- C4 witness: the theorem at `s = "1"`, whose padding is `"000001"`;
both classify to the Shenzhen main board, and the non-digit case at
`"abc123"`. -/
theorem C4_classification_witness :
    get_stock_info "1" = get_stock_info (String.mk (zfill6 "1".data)) ∧
    get_stock_info "600000" = ("sh", "沪市主板") ∧
    get_stock_info "abc123" = ("unknown", "非数字代码") :=
  ⟨(C4_classification "1" (by decide) (by decide)).1,
    (C4_classification "1" (by decide) (by decide)).2.1,
    (C4_classification "1" (by decide) (by decide)).2.2.2.2.2.2 "abc123"
      (by decide)⟩

theorem char_digit_cases {c : Char} (h : c.isDigit = true) :
    c = '0' ∨ c = '1' ∨ c = '2' ∨ c = '3' ∨ c = '4' ∨ c = '5' ∨ c = '6' ∨
    c = '7' ∨ c = '8' ∨ c = '9' := by
  have h1 : 48 ≤ c.toNat ∧ c.toNat ≤ 57 := by
    simp only [Char.isDigit, Bool.and_eq_true, decide_eq_true_eq] at h
    exact ⟨h.1, h.2⟩
  have h2 : c.toNat = 48 ∨ c.toNat = 49 ∨ c.toNat = 50 ∨ c.toNat = 51 ∨
      c.toNat = 52 ∨ c.toNat = 53 ∨ c.toNat = 54 ∨ c.toNat = 55 ∨
      c.toNat = 56 ∨ c.toNat = 57 := by omega
  have key : ∀ n : Nat, c.toNat = n → c = Char.ofNat n := by
    intro n hn
    subst hn
    exact (Char.ofNat_toNat c).symm
  rcases h2 with h | h | h | h | h | h | h | h | h | h
  · exact Or.inl (key _ h)
  · exact Or.inr (Or.inl (key _ h))
  · exact Or.inr (Or.inr (Or.inl (key _ h)))
  · exact Or.inr (Or.inr (Or.inr (Or.inl (key _ h))))
  · exact Or.inr (Or.inr (Or.inr (Or.inr (Or.inl (key _ h)))))
  · exact Or.inr (Or.inr (Or.inr (Or.inr (Or.inr (Or.inl (key _ h))))))
  · exact Or.inr (Or.inr (Or.inr (Or.inr (Or.inr (Or.inr (Or.inl (key _ h)))))))
  · exact Or.inr (Or.inr (Or.inr (Or.inr (Or.inr (Or.inr (Or.inr
      (Or.inl (key _ h))))))))
  · exact Or.inr (Or.inr (Or.inr (Or.inr (Or.inr (Or.inr (Or.inr (Or.inr
      (Or.inl (key _ h)))))))))
  · exact Or.inr (Or.inr (Or.inr (Or.inr (Or.inr (Or.inr (Or.inr (Or.inr
      (Or.inr (key _ h)))))))))

set_option maxHeartbeats 4000000 in
/-- The two branch chains agree on every code whose first three
characters are decimal digits: exhaustive case analysis over the
10 × 10 × 10 digit combinations. -/
theorem classify_core_eq (a b c : Char) (rest : List Char)
    (ha : a.isDigit = true) (hb : b.isDigit = true) (hc : c.isDigit = true) :
    utilsClassify (a :: b :: c :: rest) = mainClassify (a :: b :: c :: rest) := by
  rcases char_digit_cases ha with rfl|rfl|rfl|rfl|rfl|rfl|rfl|rfl|rfl|rfl <;>
  rcases char_digit_cases hb with rfl|rfl|rfl|rfl|rfl|rfl|rfl|rfl|rfl|rfl <;>
  rcases char_digit_cases hc with rfl|rfl|rfl|rfl|rfl|rfl|rfl|rfl|rfl|rfl <;>
  rfl

theorem classify_eq_of_digits (code : List Char) (h3 : 3 ≤ code.length)
    (hdig : code.all Char.isDigit = true) :
    utilsClassify code = mainClassify code := by
  rcases code with _ | ⟨a, _ | ⟨b, _ | ⟨c, rest⟩⟩⟩
  · simp at h3
  · simp at h3
  · simp at h3
  · simp only [List.all_cons, Bool.and_eq_true] at hdig
    exact classify_core_eq a b c rest hdig.1 hdig.2.1 hdig.2.2.1

/-- C9: the two independent classifier implementations —
`utils.get_stock_info` (Shanghai/Shenzhen tested before most Beijing
prefixes) and `main.py Utils.get_stock_info` (all Beijing prefixes
first) — are extensionally equal: every input string gets the same
`(exchange, board)` pair. -/
theorem C9_classifiers_agree (s : String) :
    get_stock_info s = mainGetStockInfo s := by
  unfold get_stock_info mainGetStockInfo
  by_cases h : pyIsdigit s.data = true
  · simp only [h, Bool.not_true, Bool.false_eq_true, if_false]
    have hdig : s.data.all Char.isDigit = true := by
      simp only [pyIsdigit, Bool.and_eq_true] at h
      exact h.2
    have hne : s.data ≠ [] := by
      intro hnil
      rw [hnil] at h
      simp [pyIsdigit] at h
    by_cases hlen : s.data.length < 7
    · rw [if_pos hlen]
      apply classify_eq_of_digits
      · rw [zfill6_length]
        omega
      · exact zfill6_all_digits _ hdig
    · rw [if_neg hlen]
      apply classify_eq_of_digits
      · omega
      · exact hdig
  · rw [Bool.not_eq_true] at h
    simp [h]

/-- Snapshot rows above the market-cap ceiling contribute nothing to the
join: dropping them beforehand leaves the joined rows unchanged. -/
theorem joinRows_drop_high_caps (ticks : List TickRow) (snaps : List SnapRow)
    (maxC : Int) :
    joinRows ticks (snaps.filter fun b => decide (b.marketCap ≤ maxC)) maxC =
      joinRows ticks snaps maxC := by
  unfold joinRows
  refine congrArg (fun f => ticks.flatMap f) (funext fun a => ?_)
  induction snaps with
  | nil => rfl
  | cons b bs ih =>
    by_cases hb : b.marketCap ≤ maxC
    · rw [List.filter_cons_of_pos (by simpa using hb)]
      simp only [List.filterMap_cons, ih]
    · have hab : (if a.code = b.code ∧ b.marketCap ≤ maxC then some (a, b) else none) =
          none := if_neg fun hh => hb hh.2
      rw [List.filter_cons_of_neg (by simpa using hb)]
      simp only [List.filterMap_cons, hab]
      exact ih

theorem aggregated_drop_high_caps (ticks : List TickRow) (snaps : List SnapRow)
    (maxC : Int) :
    aggregated ticks (snaps.filter fun b => decide (b.marketCap ≤ maxC)) maxC =
      aggregated ticks snaps maxC := by
  unfold aggregated
  rw [joinRows_drop_high_caps]

/-- C3: the aggregated query filters `market_cap ≤ maxMarketCap` before
grouping (rows above the ceiling contribute nothing), keeps after
grouping exactly the groups with `total_amount` strictly greater than
`minAmount` (a group equal to the floor is excluded), and the result is
ordered descending by the sort column. -/
theorem C3_query_semantics (ticks : List TickRow) (snaps : List SnapRow)
    (minA maxC : Int) (key : AggRow → Int) :
    (∀ r ∈ load_filtered_data ticks snaps minA maxC key,
      minA < (r.totalAmount : Int)) ∧
    (∀ r, r ∈ load_filtered_data ticks snaps minA maxC key ↔
      r ∈ aggregated ticks snaps maxC ∧ minA < (r.totalAmount : Int)) ∧
    (load_filtered_data ticks snaps minA maxC key).Sorted
      (fun x y => key y ≤ key x) ∧
    load_filtered_data ticks (snaps.filter fun b => decide (b.marketCap ≤ maxC))
      minA maxC key = load_filtered_data ticks snaps minA maxC key := by
  haveI : IsTotal AggRow (fun x y => key y ≤ key x) :=
    ⟨fun p q => Int.le_total (key q) (key p)⟩
  haveI : IsTrans AggRow (fun x y => key y ≤ key x) :=
    ⟨fun _ _ _ h1 h2 => le_trans h2 h1⟩
  have hmem : ∀ r, r ∈ load_filtered_data ticks snaps minA maxC key ↔
      r ∈ aggregated ticks snaps maxC ∧ minA < (r.totalAmount : Int) := by
    intro r
    unfold load_filtered_data
    rw [List.mem_insertionSort, List.mem_filter]
    simp
  refine ⟨fun r hr => ((hmem r).mp hr).2, hmem, ?_, ?_⟩
  · exact List.sorted_insertionSort _ _
  · unfold load_filtered_data
    rw [aggregated_drop_high_caps]

/-- C3 witness: the spec's end-to-end scenario — two ticks for
`"600000"` of 150,000 and 250,000 (total `40` 万元 after truncated
division by 10,000) against one snapshot below the ceiling — yields the
single aggregated row, and the theorem gives `30 < 40` for it. -/
theorem C3_query_witness :
    (30 : Int) <
      (((⟨"600000", "PF", ⟨"600000", 100, "q"⟩, 2, 40⟩ : AggRow)).totalAmount : Int) ∧
    (⟨"600000", "PF", ⟨"600000", 100, "q"⟩, 2, 40⟩ : AggRow) ∈
      load_filtered_data
        [⟨"600000", "PF", "09:31", 150000⟩, ⟨"600000", "PF", "09:35", 250000⟩]
        [⟨"600000", 100, "q"⟩] 30 200 (fun r => (r.totalAmount : Int)) :=
  ⟨(C3_query_semantics
      [⟨"600000", "PF", "09:31", 150000⟩, ⟨"600000", "PF", "09:35", 250000⟩]
      [⟨"600000", 100, "q"⟩] 30 200 (fun r => (r.totalAmount : Int))).1
      ⟨"600000", "PF", ⟨"600000", 100, "q"⟩, 2, 40⟩ (by decide),
    by decide⟩

end StockSeek
